import Mathlib

set_option maxHeartbeats 1000000

/-!
Shallow embedding of the two programs of this repository:

* src/stock-analysis/app.py — a Streamlit stock dashboard built around
  `fetch_stock_data`, `process_data`, `calculate_metrics` and
  `add_technical_indicators`, plus the static `interval_mapping` table.
* src/url-shortner/app2.py — a FastAPI URL shortener with
  `generate_short_code`, `shorten_url` and `redirect_url`.

Pandas cells are modelled as `Option ℚ` (`none` is NaN, the null produced by a
failed numeric coercion; machine floats are idealised as rationals).  Python
exceptions are modelled with `Except String`.  External effects (the
`yf.download` network call, the random generator) are passed in as explicit
oracles.
-/

namespace StockApp

/-- Pandas cell: `none` models NaN (a null numeric value), `some q` a finite
numeric value. -/
abbrev Cell := Option ℚ

/-- Raw data frame as returned by `yf.download`: a (possibly timezone-naive)
datetime index of absolute instants, and one column per OHLCV field.  A column
is a list of sub-columns, so that the multi-dimensional case checked by
`process_data` (`data[col].ndim > 1`, a pandas MultiIndex column) is
representable; a one-dimensional column is a singleton list of one
sub-column. -/
structure RawDf where
  tzAware : Bool
  index : List Int
  open_ : List (List Cell)
  high : List (List Cell)
  low : List (List Cell)
  close : List (List Cell)
  volume : List (List Cell)
deriving DecidableEq

/-- Empty frame `pd.DataFrame()` returned on the failure paths of
`fetch_stock_data`. -/
def RawDf.mkEmpty : RawDf :=
  { tzAware := false, index := [], open_ := [], high := [], low := [], close := [],
    volume := [] }

/-- Processed frame produced by `process_data`: the index has been reset into
the `Datetime` column, all OHLCV columns are one-dimensional, and the frame
can additionally carry the two indicator columns that
`add_technical_indicators` later stores on it (`none` while absent). -/
structure Df where
  tz : String
  datetime : List Int
  open_ : List Cell
  high : List Cell
  low : List Cell
  close : List Cell
  volume : List Cell
  sma20 : Option (List Cell)
  ema20 : Option (List Cell)
deriving DecidableEq

/-- Column flattening loop of `process_data`: a multi-dimensional column (more
than one sub-column) is replaced by its first sub-column
(`data[col].iloc[:, 0]`); a one-dimensional column already is its single
sub-column.  In both cases the result is the first sub-column. -/
def flattenCol (c : List (List Cell)) : List Cell := c.headD []

/-- Source `process_data`: localises a timezone-naive index to UTC and then
converts it to US/Eastern (both operations relabel wall-clock displays; the
absolute instants modelled here are unchanged and stay in their original
order), resets the index into the `Datetime` column (renaming `Date` to
`Datetime` for daily data), and flattens any multi-dimensional OHLCV column to
its first sub-column.  No sorting and no dropping of rows occurs anywhere in
the function. -/
def process_data (data : RawDf) : Df :=
  { tz := "US/Eastern"
    datetime := data.index
    open_ := flattenCol data.open_
    high := flattenCol data.high
    low := flattenCol data.low
    close := flattenCol data.close
    volume := flattenCol data.volume
    sma20 := none
    ema20 := none }

/-- Request built by `fetch_stock_data` for `yf.download`: for period `1wk`
the source computes `start_date = end_date - timedelta(days=7)` and downloads
by date range; for every other period it downloads by period.  Time is
measured in seconds, so seven days is `7 * 86400`. -/
inductive DownloadReq where
  | byDateRange (ticker : String) (startTime endTime : Int) (interval : String)
  | byPeriod (ticker : String) (period : String) (interval : String)
deriving DecidableEq

/-- Request construction of `fetch_stock_data` (the `if period == '1wk'`
branch). -/
def buildRequest (now : Int) (ticker period interval : String) : DownloadReq :=
  if period = "1wk" then DownloadReq.byDateRange ticker (now - 7 * 86400) now interval
  else DownloadReq.byPeriod ticker period interval

/-- Diagnostic shown by `st.error` when the provider returns an empty frame
(the Python f-string wraps the three values in single quotes, elided here). -/
def noDataMsg (ticker period interval : String) : String :=
  "No data available for ticker " ++ ticker ++ " with period " ++ period ++
    " and interval " ++ interval ++ "."

/-- Source `fetch_stock_data`.  The external call `yf.download` is an oracle
`download k req`, the outcome of the k-th download call the body would issue;
the body contains no loop and issues exactly one call, `k = 0`.  The whole
body runs inside a `try/except Exception` block: an exception raised by the
download (`Except.error e`) is caught and turned into the empty frame plus the
`st.error` diagnostic; an empty download result likewise yields the empty
frame plus a diagnostic; a non-empty result is returned as-is with no
diagnostic.  The returned pair is (frame, displayed error message), so no
exception ever escapes to the caller. -/
def fetch_stock_data (download : Nat → DownloadReq → Except String RawDf)
    (now : Int) (ticker period interval : String) : RawDf × Option String :=
  match download 0 (buildRequest now ticker period interval) with
  | Except.error e => (RawDf.mkEmpty, some (("Error fetching data: ") ++ e))
  | Except.ok data =>
    if data.index.isEmpty then (RawDf.mkEmpty, some (noDataMsg ticker period interval))
    else (data, none)

/-- NaN-propagating subtraction on cells (`change = last_close - prev_close`
on Python floats: any operand NaN makes the result NaN). -/
def omSub (a b : Cell) : Cell :=
  match a, b with
  | some x, some y => some (x - y)
  | _, _ => none

/-- Python float division as used in `(change / prev_close) * 100`: dividing
by 0.0 raises `ZeroDivisionError` (also when the numerator is NaN); dividing
by NaN, or NaN by a non-zero value, yields NaN. -/
def omDiv (a b : Cell) : Except String Cell :=
  match b with
  | some q => if q = 0 then Except.error ("ZeroDivisionError") else Except.ok (a.map (fun x => x / q))
  | none => Except.ok none

/-- Pandas `.iloc[0]`: the first cell, raising `IndexError` on an empty
column. -/
def ilocFirst (xs : List Cell) : Except String Cell :=
  match xs.head? with
  | some c => Except.ok c
  | none => Except.error ("IndexError")

/-- Pandas `.iloc[-1]`: the last cell, raising `IndexError` on an empty
column. -/
def ilocLast (xs : List Cell) : Except String Cell :=
  match xs.getLast? with
  | some c => Except.ok c
  | none => Except.error ("IndexError")

/-- Pandas `.max()` with its default NaN skipping: the maximum of the non-null
cells, NaN when there is none. -/
def pandasMax (xs : List Cell) : Cell :=
  match xs.filterMap id with
  | [] => none
  | y :: ys => some (ys.foldl max y)

/-- Pandas `.min()` with its default NaN skipping. -/
def pandasMin (xs : List Cell) : Cell :=
  match xs.filterMap id with
  | [] => none
  | y :: ys => some (ys.foldl min y)

/-- Pandas `.sum()` with its default NaN skipping: the sum of the non-null
cells, 0 when there is none. -/
def pandasSum (xs : List Cell) : ℚ := (xs.filterMap id).sum

/-- Python `int(...)` on a float: truncation toward zero. -/
def pyInt (q : ℚ) : ℤ := if 0 ≤ q then q.floor else q.ceil

/-- Return value of `calculate_metrics`, in source order. -/
structure Metrics where
  last_close : Cell
  change : Cell
  pct_change : Cell
  high : Cell
  low : Cell
  volume : ℤ
deriving DecidableEq

/-- Source `calculate_metrics`: reads the last and first `Close` cells
(raising `IndexError` on an empty frame), computes the absolute change, then
the percent change `(change / prev_close) * 100` — with no guard, so a zero
first close raises `ZeroDivisionError` — and finally the period high, low and
total volume. -/
def calculate_metrics (data : Df) : Except String Metrics :=
  match ilocLast data.close with
  | Except.error e => Except.error e
  | Except.ok last_close =>
    match ilocFirst data.close with
    | Except.error e => Except.error e
    | Except.ok prev_close =>
      let change := omSub last_close prev_close
      match omDiv change prev_close with
      | Except.error e => Except.error e
      | Except.ok q =>
        Except.ok { last_close := last_close, change := change,
                    pct_change := q.map (fun x => x * 100),
                    high := pandasMax data.high, low := pandasMin data.low,
                    volume := pyInt (pandasSum data.volume) }

/-- Cell of a column at a position, `none` past the end. -/
def cellAt : List Cell → Nat → Cell
  | [], _ => none
  | c :: _, 0 => c
  | _ :: rest, j + 1 => cellAt rest j

/-- Rolling window of width `w` ending at position `i`
(pandas `rolling(window=w)`). -/
def windowAt (w : Nat) (xs : List Cell) (i : Nat) : List Cell := (xs.drop (i + 1 - w)).take w

/-- Modelled from the spec: one cell of the SMA column of
`ta.trend.sma_indicator(close, window=w)` (the `ta` library is not part of
this repository).  The simple moving average is the windowed mean of `close`,
defined only once the window is full and contains no null (pandas
`rolling(w).mean()` with its default minimum of `w` observations); the first
`w - 1` positions are null. -/
def smaCell (w : Nat) (xs : List Cell) (i : Nat) : Cell :=
  if w ≤ i + 1 then
    if (windowAt w xs i).all Option.isSome then
      some (((windowAt w xs i).filterMap id).sum / (w : ℚ))
    else none
  else none

/-- Modelled from the spec: the SMA column over a close column. -/
def smaIndicator (w : Nat) (xs : List Cell) : List Cell :=
  (List.range xs.length).map (smaCell w xs)

/-- One step of the exponential smoothing recurrence with factor `a`: seeded
by the first observation, then `a * x + (1 - a) * y`. -/
def emaStep (a : ℚ) (cur : Cell) (x : ℚ) : ℚ :=
  match cur with
  | none => x
  | some y => a * x + (1 - a) * y

/-- Modelled from the spec: the EMA recurrence of
`ta.trend.ema_indicator(close, window=w)` (pandas
`ewm(span=w, min_periods=w, adjust=False).mean()`), walking the column while
tracking the count of observations seen and the current smoothed value.  The
recurrence carries its value past null cells, and a position is non-null only
once at least `w` observations have been seen; in particular the first `w - 1`
positions are null. -/
def emaGo (a : ℚ) (w : Nat) : List Cell → Nat → Cell → List Cell
  | [], _, _ => []
  | some x :: rest, cnt, cur =>
    let cur2 := emaStep a cur x
    (if w ≤ cnt + 1 then some cur2 else none) :: emaGo a w rest (cnt + 1) (some cur2)
  | none :: rest, cnt, cur =>
    (if w ≤ cnt then cur else none) :: emaGo a w rest cnt cur

/-- Modelled from the spec: the EMA column, smoothing factor
`a = 2 / (w + 1)`. -/
def emaIndicator (w : Nat) (xs : List Cell) : List Cell :=
  emaGo (2 / ((w : ℚ) + 1)) w xs 0 none

/-- Source `add_technical_indicators`: stores the SMA-20 and EMA-20 of the
`Close` column on the frame itself (`data['SMA_20'] = ...`,
`data['EMA_20'] = ...`) and returns that same frame.  After `process_data`
every column is one-dimensional, so the `ndim > 1` re-wrapping branch reads
the column unchanged (`close_data = data['Close']`). -/
def add_technical_indicators (data : Df) : Df :=
  let close_data := data.close
  { data with sma20 := some (smaIndicator 20 close_data),
              ema20 := some (emaIndicator 20 close_data) }

/-- Call-level view of `add_technical_indicators`, making the Python in-place
column assignments observable: frames live as objects in a heap indexed by
references; the call updates the frame stored at the argument reference and
returns that same reference (`return data` returns the mutated object, not a
copy). -/
def add_technical_indicators_call (heap : Nat → Df) (r : Nat) : Nat × (Nat → Df) :=
  (r, fun x => if x = r then add_technical_indicators (heap x) else heap x)

/-- The static `interval_mapping` dictionary of the source, mapping each
selectable period to the `yf.download` interval used for it. -/
def interval_mapping : List (String × String) :=
  [("1d", "1m"), ("1wk", "30m"), ("1mo", "1d"), ("1y", "1wk"), ("max", "1wk")]

/-- Provider payload with out-of-order timestamps and a null close cell. -/
def badRaw : RawDf :=
  { tzAware := false, index := [2, 1],
    open_ := [[some 1, some 1]], high := [[some 1, some 1]],
    low := [[some 1, some 1]], close := [[some 1, none]],
    volume := [[some 1, some 1]] }

/-- Download oracle always answering with `badRaw`. -/
def downloadBad : Nat → DownloadReq → Except String RawDf := fun _ _ => Except.ok badRaw

/-- A well-formed non-empty provider payload. -/
def goodRaw : RawDf :=
  { tzAware := true, index := [1, 2, 3],
    open_ := [[some 1, some 2, some 3]], high := [[some 2, some 3, some 4]],
    low := [[some 1, some 1, some 2]], close := [[some 1, some 2, some 3]],
    volume := [[some 10, some 20, some 30]] }

/-- Download oracle always answering with `goodRaw`. -/
def downloadGood : Nat → DownloadReq → Except String RawDf := fun _ _ => Except.ok goodRaw

/-- Download oracle failing on the first attempt and succeeding on every later
one. -/
def downloadFailThenOk : Nat → DownloadReq → Except String RawDf :=
  fun k _ => if k = 0 then Except.error ("HTTP 500") else Except.ok goodRaw

/-- Download oracle agreeing with `downloadFailThenOk` on the first attempt
and differing on every later one. -/
def downloadAltTail : Nat → DownloadReq → Except String RawDf :=
  fun k _ => if k = 0 then Except.error ("HTTP 500") else Except.error ("service unavailable")

/-- Processed frame with `n` rows, every numeric cell 1. -/
def dfN (n : Nat) : Df :=
  { tz := "US/Eastern", datetime := (List.range n).map (fun k => (k : Int)),
    open_ := List.replicate n (some 1), high := List.replicate n (some 1),
    low := List.replicate n (some 1), close := List.replicate n (some 1),
    volume := List.replicate n (some 1), sma20 := none, ema20 := none }

/-- Heap holding a one-row frame at every reference. -/
def exHeap : Nat → Df := fun _ => dfN 1

/-- Processed frame whose first close is zero. -/
def dfZeroFirst : Df :=
  { tz := "US/Eastern", datetime := [1, 2], open_ := [some 1, some 1],
    high := [some 1, some 1], low := [some 1, some 1], close := [some 0, some 10],
    volume := [some 1, some 1], sma20 := none, ema20 := none }

/-- Processed frame with closes 100 and 110. -/
def dfHundred : Df :=
  { tz := "US/Eastern", datetime := [1, 2], open_ := [some 100, some 110],
    high := [some 100, some 110], low := [some 100, some 110],
    close := [some 100, some 110], volume := [some 10, some 10],
    sma20 := none, ema20 := none }

end StockApp

namespace UrlShortener

/-- Python `string.ascii_letters`. -/
def ascii_letters : String := "abcdefghijklmnopqrstuvwxyzABCDEFGHIJKLMNOPQRSTUVWXYZ"

/-- Python `string.digits`. -/
def digitChars : String := "0123456789"

/-- Population `string.ascii_letters + string.digits` that `random.choices`
draws from in `generate_short_code`. -/
def alphabet : String := ascii_letters ++ digitChars

/-- Source `generate_short_code`: `random.choices(population, k=length)`
joined into a string.  The random generator is an oracle: `rng i`, reduced
modulo the population size, selects the character at position `i`.  The source
gives `length` the default value 6; callers relying on the default are
modelled by passing 6 explicitly. -/
def generate_short_code (rng : Nat → Nat) (length : Nat) : String :=
  String.mk ((List.range length).map
    (fun i => alphabet.toList.getD (rng i % alphabet.toList.length) 'a'))

/-- The module-level dictionary `url_db`, modelled as a partial map. -/
abbrev UrlDb := String → Option String

/-- Python truthiness of the looked-up `Optional[str]` value: `None` and the
empty string are falsy, every other string is truthy. -/
def pyTruthy (s : Option String) : Bool :=
  match s with
  | some u => u != ""
  | none => false

/-- Responses of the two routes: a 302 `RedirectResponse`, or the
`HTTPException` raised with status 404. -/
inductive HttpResult where
  | redirect (status : Nat) (url : String)
  | notFound (status : Nat) (detail : String)
deriving DecidableEq

/-- Source `shorten_url`: generates a fresh code with the default length 6,
stores `url_db[short_code] = long_url` (the wholesale JSON file re-write has
no observable effect on the in-memory map and is elided, per the spec's
non-goals), and returns the reply string built from the request base URL and
the code. -/
def shorten_url (rng : Nat → Nat) (url_db : UrlDb) (base_url long_url : String) :
    UrlDb × String :=
  let short_code := generate_short_code rng 6
  (fun x => if x = short_code then some long_url else url_db x,
   ("Shortened URL: ") ++ base_url ++ short_code)

/-- Source `redirect_url`: looks the code up with `dict.get` and tests the
result for truthiness (`if long_url:`), returning a 302 redirect when truthy
and raising a 404 `HTTPException` otherwise. -/
def redirect_url (url_db : UrlDb) (short_code : String) : HttpResult :=
  let long_url := url_db short_code
  if pyTruthy long_url then HttpResult.redirect 302 (long_url.getD "")
  else HttpResult.notFound 404 ("Short URL not found")

/-- Random oracle always choosing index 0. -/
def rngZero : Nat → Nat := fun _ => 0

/-- Empty store. -/
def emptyDb : UrlDb := fun _ => none

/-- Store holding an empty long URL under the code `abc`. -/
def dbEmptyStored : UrlDb := fun x => if x = ("abc") then some ("") else none

end UrlShortener

namespace StockApp

/-- C3 (confirmed): for every download oracle and every input
(ticker, period, interval), `fetch_stock_data` never raises — its codomain is
a plain pair, not an exception — and its result is either the empty frame
together with a human-readable diagnostic message (every failure path:
network error, provider error, empty result), or a non-empty frame with no
diagnostic. -/
theorem fetch_failure_dichotomy (download : Nat → DownloadReq → Except String RawDf)
    (now : Int) (ticker period interval : String) :
    ((fetch_stock_data download now ticker period interval).1 = RawDf.mkEmpty ∧
      ((fetch_stock_data download now ticker period interval).2).isSome = true) ∨
    ((fetch_stock_data download now ticker period interval).2 = none ∧
      (fetch_stock_data download now ticker period interval).1.index ≠ []) := by
  rcases hd : download 0 (buildRequest now ticker period interval) with e | data
  · left
    constructor <;> simp [fetch_stock_data, hd]
  · by_cases he : data.index.isEmpty
    · left
      constructor <;> simp [fetch_stock_data, hd, he]
    · right
      constructor
      · simp [fetch_stock_data, hd, he]
      · simp only [fetch_stock_data, hd]
        rw [if_neg he]
        intro hnil
        have hn2 : data.index = [] := hnil
        rw [hn2] at he
        exact he rfl

/-- C2 (amended): `fetch_stock_data` makes exactly one download attempt — its
result depends only on the outcome of attempt 0, so no retry and no backoff
delay ever occurs — and a failed attempt immediately surfaces the empty frame
plus the diagnostic message, with no further attempt. -/
theorem fetch_single_attempt (d1 d2 : Nat → DownloadReq → Except String RawDf)
    (now : Int) (ticker period interval : String)
    (h : ∀ r, d1 0 r = d2 0 r) :
    fetch_stock_data d1 now ticker period interval =
      fetch_stock_data d2 now ticker period interval ∧
    (∀ e, d1 0 (buildRequest now ticker period interval) = Except.error e →
      fetch_stock_data d1 now ticker period interval =
        (RawDf.mkEmpty, some (("Error fetching data: ") ++ e))) := by
  constructor
  · unfold fetch_stock_data
    rw [h (buildRequest now ticker period interval)]
  · intro e he
    unfold fetch_stock_data
    rw [he]

/-- C2 witness: with an oracle that fails on attempt 0, the fetch result
coincides with that for any oracle agreeing on attempt 0, and equals the empty
frame plus the diagnostic. -/
theorem fetch_single_attempt_witness :
    fetch_stock_data downloadFailThenOk 0 ("AAPL") ("1mo") ("1d") =
      fetch_stock_data downloadAltTail 0 ("AAPL") ("1mo") ("1d") ∧
    fetch_stock_data downloadFailThenOk 0 ("AAPL") ("1mo") ("1d") =
      (RawDf.mkEmpty, some (("Error fetching data: ") ++ ("HTTP 500"))) :=
  ⟨(fetch_single_attempt downloadFailThenOk downloadAltTail 0 ("AAPL") ("1mo") ("1d")
      (fun _ => rfl)).1,
   (fetch_single_attempt downloadFailThenOk downloadAltTail 0 ("AAPL") ("1mo") ("1d")
      (fun _ => rfl)).2 ("HTTP 500") rfl⟩

/-- C2 counterexample: against an endpoint that fails on the first attempt and
would succeed with non-empty data on the second, the claimed retry policy
would recover, but `fetch_stock_data` returns the empty frame and a
diagnostic: no second attempt is ever made. -/
theorem fetch_no_retry_counterexample :
    fetch_stock_data downloadFailThenOk 0 ("AAPL") ("1mo") ("1d") =
      (RawDf.mkEmpty, some ("Error fetching data: HTTP 500")) ∧
    downloadFailThenOk 1 (buildRequest 0 ("AAPL") ("1mo") ("1d")) = Except.ok goodRaw ∧
    goodRaw.index ≠ [] :=
  ⟨rfl, rfl, by decide⟩

/-- C1 (amended): a successful fetch returning a non-empty frame hands the
provider's payload back unchanged, and `process_data` preserves the timestamp
order and every column's cells (flattened to the first sub-column): it neither
sorts bars by timestamp nor drops rows with null numeric cells, so strictly
increasing timestamps and null-freedom hold only when the provider's payload
already has them. -/
theorem fetch_and_process_preserve (download : Nat → DownloadReq → Except String RawDf)
    (now : Int) (ticker period interval : String) (data : RawDf)
    (hok : download 0 (buildRequest now ticker period interval) = Except.ok data)
    (hne : data.index ≠ []) :
    fetch_stock_data download now ticker period interval = (data, none) ∧
    (process_data data).datetime = data.index ∧
    (process_data data).open_ = flattenCol data.open_ ∧
    (process_data data).high = flattenCol data.high ∧
    (process_data data).low = flattenCol data.low ∧
    (process_data data).close = flattenCol data.close ∧
    (process_data data).volume = flattenCol data.volume := by
  refine ⟨?_, rfl, rfl, rfl, rfl, rfl, rfl⟩
  have he : data.index.isEmpty = false := by
    cases hi : data.index with
    | nil => exact absurd hi hne
    | cons a l => rfl
  simp [fetch_stock_data, hok, he]

/-- C1 witness: a concrete successful fetch returns the payload unchanged and
processing preserves its index. -/
theorem fetch_and_process_preserve_witness :
    fetch_stock_data downloadGood 0 ("MSFT") ("1mo") ("1d") = (goodRaw, none) ∧
    (process_data goodRaw).datetime = goodRaw.index :=
  ⟨(fetch_and_process_preserve downloadGood 0 ("MSFT") ("1mo") ("1d") goodRaw rfl
      (by decide)).1,
   (fetch_and_process_preserve downloadGood 0 ("MSFT") ("1mo") ("1d") goodRaw rfl
      (by decide)).2.1⟩

/-- C1 counterexample: a provider payload with decreasing timestamps and a
null close is returned by a successful non-empty fetch as-is, and after
`process_data` the series still has non-increasing timestamps and a null
numeric cell — the claimed sorting and null-dropping do not happen. -/
theorem fetch_unsorted_counterexample :
    fetch_stock_data downloadBad 0 ("AAPL") ("1mo") ("1d") = (badRaw, none) ∧
    badRaw.index ≠ [] ∧
    ¬ List.Pairwise (fun a b => a < b) (process_data badRaw).datetime ∧
    (process_data badRaw).close.all Option.isSome = false :=
  ⟨rfl, by decide, by decide, rfl⟩

/-- C7 (amended): the period-to-interval mapping is the fixed static table
mapping `1d` to one-minute intraday samples and `max` to weekly (`1wk`)
samples over all available history, with `1wk` at 30 minutes, `1mo` daily and
`1y` weekly. -/
theorem interval_mapping_table :
    interval_mapping.lookup ("1d") = some ("1m") ∧
    interval_mapping.lookup ("1wk") = some ("30m") ∧
    interval_mapping.lookup ("1mo") = some ("1d") ∧
    interval_mapping.lookup ("1y") = some ("1wk") ∧
    interval_mapping.lookup ("max") = some ("1wk") :=
  ⟨rfl, rfl, rfl, rfl, rfl⟩

/-- C7 counterexample: the table maps the period `max` to the weekly interval
`1wk`, which is not the daily interval `1d` the claim states. -/
theorem interval_mapping_max_counterexample :
    interval_mapping.lookup ("max") = some ("1wk") ∧ ("1wk" : String) ≠ ("1d") :=
  ⟨rfl, by decide⟩

end StockApp

namespace StockApp

/-- C4 (amended): on a non-empty series, `calculate_metrics` computes the
percent change as `(last_close - first_close) / first_close * 100` when the
first close is non-zero, but a zero first close raises `ZeroDivisionError` —
the computation is not defined as 0 in that case. -/
theorem calculate_metrics_pct_spec (data : Df) (c0 cl : ℚ)
    (h0 : data.close.head? = some (some c0)) (hl : data.close.getLast? = some (some cl)) :
    (c0 = 0 → calculate_metrics data = Except.error ("ZeroDivisionError")) ∧
    (c0 ≠ 0 → calculate_metrics data =
      Except.ok { last_close := some cl, change := some (cl - c0),
                  pct_change := some ((cl - c0) / c0 * 100),
                  high := pandasMax data.high, low := pandasMin data.low,
                  volume := pyInt (pandasSum data.volume) }) := by
  have hfirst : ilocFirst data.close = Except.ok (some c0) := by
    simp [ilocFirst, h0]
  have hlast : ilocLast data.close = Except.ok (some cl) := by
    simp [ilocLast, hl]
  constructor
  · intro hz
    simp [calculate_metrics, hfirst, hlast, omSub, omDiv, hz]
  · intro hz
    simp [calculate_metrics, hfirst, hlast, omSub, omDiv, hz]

/-- C4 witness: on the two-bar series with closes 100 and 110 the metrics
succeed with the percent-change formula. -/
theorem calculate_metrics_pct_spec_witness :
    calculate_metrics dfHundred =
      Except.ok { last_close := some 110, change := some (110 - 100),
                  pct_change := some ((110 - 100) / 100 * 100),
                  high := pandasMax dfHundred.high, low := pandasMin dfHundred.low,
                  volume := pyInt (pandasSum dfHundred.volume) } :=
  (calculate_metrics_pct_spec dfHundred 100 110 rfl rfl).2 (by norm_num)

/-- C4 counterexample: on a non-empty series whose first close is 0,
`calculate_metrics` raises `ZeroDivisionError` instead of returning a percent
change of 0. -/
theorem metrics_zero_division_counterexample :
    calculate_metrics dfZeroFirst = Except.error ("ZeroDivisionError") := by
  have h := (calculate_metrics_pct_spec dfZeroFirst 0 10 rfl rfl).1 rfl
  exact h

/-- C5 (amended): `add_technical_indicators` mutates its input in place — it
stores the SMA-20 and EMA-20 columns on the very frame object it received and
returns that same object (same reference), leaving the other columns of the
frame and all other objects in the heap unchanged.  The original series is
extended, not copied and not left unchanged. -/
theorem add_indicators_in_place (heap : Nat → Df) (r x : Nat) :
    (add_technical_indicators_call heap r).1 = r ∧
    (add_technical_indicators_call heap r).2 r = add_technical_indicators (heap r) ∧
    (add_technical_indicators (heap r)).sma20 = some (smaIndicator 20 (heap r).close) ∧
    (add_technical_indicators (heap r)).ema20 = some (emaIndicator 20 (heap r).close) ∧
    (add_technical_indicators (heap r)).close = (heap r).close ∧
    (add_technical_indicators (heap r)).datetime = (heap r).datetime ∧
    (x ≠ r → (add_technical_indicators_call heap r).2 x = heap x) := by
  refine ⟨rfl, by simp [add_technical_indicators_call], rfl, rfl, rfl, rfl,
    fun hx => by simp [add_technical_indicators_call, hx]⟩

/-- C5 witness: at a concrete heap, the call leaves the frame stored at a
different reference untouched. -/
theorem add_indicators_in_place_witness :
    (1 : Nat) ≠ 0 ∧ (add_technical_indicators_call exHeap 0).2 1 = exHeap 1 :=
  ⟨by decide, (add_indicators_in_place exHeap 0 1).2.2.2.2.2.2 (by decide)⟩

/-- C5 counterexample: after the call, the frame object the input reference
points to is no longer equal to the frame stored there before the call — the
input series was mutated, not left unchanged. -/
theorem add_indicators_changes_input :
    (add_technical_indicators_call exHeap 0).2 0 ≠ exHeap 0 := by
  decide

end StockApp

namespace UrlShortener

/-- C10 (confirmed): when a short code is present in the store but its stored
long URL is the empty string, `redirect_url` answers 404 rather than
redirecting, because `if long_url:` tests the looked-up value for truthiness
and the empty string is falsy. -/
theorem redirect_empty_stored_url (db : UrlDb) (code : String)
    (h : db code = some ("")) :
    redirect_url db code = HttpResult.notFound 404 ("Short URL not found") := by
  simp [redirect_url, h, pyTruthy]

/-- C10 witness: concrete store holding an empty long URL under `abc`. -/
theorem redirect_empty_stored_url_witness :
    redirect_url dbEmptyStored ("abc") = HttpResult.notFound 404 ("Short URL not found") :=
  redirect_empty_stored_url dbEmptyStored ("abc") rfl

/-- C8 (amended): for every non-empty long URL, shortening it and then
requesting the generated code yields a 302 redirect to that URL; and
requesting any code absent from the store yields a 404. -/
theorem shorten_then_redirect (rng : Nat → Nat) (db : UrlDb) (base long : String)
    (hne : long ≠ "") :
    redirect_url (shorten_url rng db base long).1 (generate_short_code rng 6) =
      HttpResult.redirect 302 long ∧
    (∀ db2 code, db2 code = none →
      redirect_url db2 code = HttpResult.notFound 404 ("Short URL not found")) := by
  constructor
  · simp [shorten_url, redirect_url, pyTruthy, hne]
  · intro db2 code h
    simp [redirect_url, h, pyTruthy]

/-- C8 witness: a concrete shorten-then-redirect round trip, and a 404 on a
code absent from the empty store. -/
theorem shorten_then_redirect_witness :
    redirect_url (shorten_url rngZero emptyDb ("http://sv/") ("https://example.com")).1
        (generate_short_code rngZero 6) =
      HttpResult.redirect 302 ("https://example.com") ∧
    redirect_url emptyDb ("doesnotexist") = HttpResult.notFound 404 ("Short URL not found") :=
  ⟨(shorten_then_redirect rngZero emptyDb ("http://sv/") ("https://example.com")
      (by decide)).1,
   (shorten_then_redirect rngZero emptyDb ("http://sv/") ("https://example.com")
      (by decide)).2 emptyDb ("doesnotexist") rfl⟩

/-- C8 counterexample: with the empty string as the long URL, shortening and
then requesting the generated code yields 404, not a 302 redirect — the
claim's universal statement over every long URL fails at the empty string. -/
theorem shorten_empty_url_counterexample :
    redirect_url (shorten_url rngZero emptyDb ("http://sv/") ("")).1
        (generate_short_code rngZero 6) =
      HttpResult.notFound 404 ("Short URL not found") ∧
    HttpResult.notFound 404 ("Short URL not found") ≠ HttpResult.redirect 302 ("") := by
  constructor
  · simp [shorten_url, redirect_url, pyTruthy]
  · decide

end UrlShortener

namespace StockApp

/-- Helper: a map over `List.range` whose function is constantly `none` below
the bound is a replicate of `none`. -/
theorem map_range_eq_replicate (n : Nat) (f : Nat → Cell) (h : ∀ i, i < n → f i = none) :
    (List.range n).map f = List.replicate n (none : Cell) := by
  induction n generalizing f with
  | zero => rfl
  | succ m ih =>
    rw [List.range_succ_eq_map, List.map_cons, List.map_map, h 0 (Nat.succ_pos m),
      List.replicate_succ]
    congr 1
    exact ih (f ∘ Nat.succ) (fun i hi => h (i + 1) (Nat.succ_lt_succ hi))

/-- Helper: cell access into a map over `List.range`. -/
theorem cellAt_map_range (n : Nat) (f : Nat → Cell) (j : Nat) (hj : j < n) :
    cellAt ((List.range n).map f) j = f j := by
  induction n generalizing f j with
  | zero => exact absurd hj (Nat.not_lt_zero j)
  | succ m ih =>
    rw [List.range_succ_eq_map, List.map_cons, List.map_map]
    cases j with
    | zero => rfl
    | succ k =>
      rw [show cellAt (f 0 :: (List.range m).map (f ∘ Nat.succ)) (k + 1) =
            cellAt ((List.range m).map (f ∘ Nat.succ)) k from rfl]
      exact ih (f ∘ Nat.succ) k (by omega)

/-- Helper: the SMA cell is null while the window is not yet full. -/
theorem smaCell_none (w : Nat) (xs : List Cell) (i : Nat) (h : i + 1 < w) :
    smaCell w xs i = none := by
  unfold smaCell
  rw [if_neg (by omega)]

/-- Helper: on a 20-bar null-free column, the SMA-20 cell at the final
position is non-null. -/
theorem smaCell_at_19 (xs : List Cell) (h20 : xs.length = 20)
    (hall : xs.all Option.isSome = true) : (smaCell 20 xs 19).isSome = true := by
  have hwin : windowAt 20 xs 19 = xs := by
    show (xs.drop (19 + 1 - 20)).take 20 = xs
    rw [show (19 + 1 - 20 : Nat) = 0 from rfl, List.drop_zero, ← h20, List.take_length]
  unfold smaCell
  rw [if_pos (by norm_num : (20 : Nat) ≤ 19 + 1), hwin, if_pos hall]
  rfl

/-- Helper: the EMA walk preserves the column length. -/
theorem emaGo_length (a : ℚ) (w : Nat) (xs : List Cell) :
    ∀ (cnt : Nat) (cur : Cell), (emaGo a w xs cnt cur).length = xs.length := by
  induction xs with
  | nil => intro cnt cur; rfl
  | cons hd tl ih =>
    intro cnt cur
    cases hd with
    | none => simp [emaGo, ih]
    | some x => simp [emaGo, ih]

/-- Helper: while fewer than `w` observations can have been seen by the end of
the column, every EMA output cell is null. -/
theorem emaGo_replicate (a : ℚ) (w : Nat) (xs : List Cell) :
    ∀ (cnt : Nat) (cur : Cell), cnt + xs.length < w →
      emaGo a w xs cnt cur = List.replicate xs.length (none : Cell) := by
  induction xs with
  | nil => intro cnt cur _; rfl
  | cons hd tl ih =>
    intro cnt cur h
    rw [List.length_cons] at h
    cases hd with
    | none =>
      rw [List.length_cons, List.replicate_succ]
      show (if w ≤ cnt then cur else none) :: emaGo a w tl cnt cur = _
      rw [if_neg (by omega)]
      congr 1
      exact ih cnt cur (by omega)
    | some x =>
      rw [List.length_cons, List.replicate_succ]
      show (if w ≤ cnt + 1 then some (emaStep a cur x) else none) ::
          emaGo a w tl (cnt + 1) (some (emaStep a cur x)) = _
      rw [if_neg (by omega)]
      congr 1
      exact ih (cnt + 1) (some (emaStep a cur x)) (by omega)

/-- Helper: an EMA output cell at a position where fewer than `w` observations
can have been seen is null. -/
theorem emaGo_cellAt_lt (a : ℚ) (w : Nat) (xs : List Cell) :
    ∀ (j cnt : Nat) (cur : Cell), j < xs.length → cnt + j + 1 < w →
      cellAt (emaGo a w xs cnt cur) j = none := by
  induction xs with
  | nil => intro j cnt cur hj _; exact absurd hj (Nat.not_lt_zero j)
  | cons hd tl ih =>
    intro j cnt cur hj hw
    rw [List.length_cons] at hj
    cases hd with
    | none =>
      cases j with
      | zero =>
        show (if w ≤ cnt then cur else none) = none
        rw [if_neg (by omega)]
      | succ k =>
        show cellAt (emaGo a w tl cnt cur) k = none
        exact ih k cnt cur (by omega) (by omega)
    | some x =>
      cases j with
      | zero =>
        show (if w ≤ cnt + 1 then some (emaStep a cur x) else none) = none
        rw [if_neg (by omega)]
      | succ k =>
        show cellAt (emaGo a w tl (cnt + 1) (some (emaStep a cur x))) k = none
        exact ih k (cnt + 1) (some (emaStep a cur x)) (by omega) (by omega)

/-- Helper: on a null-free column, an EMA output cell at a position where at
least `w` observations have been seen is non-null. -/
theorem emaGo_cellAt_ge (a : ℚ) (w : Nat) (xs : List Cell) :
    ∀ (j cnt : Nat) (cur : Cell), xs.all Option.isSome = true → j < xs.length →
      w ≤ cnt + j + 1 → (cellAt (emaGo a w xs cnt cur) j).isSome = true := by
  induction xs with
  | nil => intro j cnt cur _ hj _; exact absurd hj (Nat.not_lt_zero j)
  | cons hd tl ih =>
    intro j cnt cur hall hj hw
    rw [List.length_cons] at hj
    rw [List.all_cons] at hall
    cases hd with
    | none => simp at hall
    | some x =>
      have htl : tl.all Option.isSome = true := by
        rw [Bool.and_eq_true] at hall
        exact hall.2
      cases j with
      | zero =>
        show ((if w ≤ cnt + 1 then some (emaStep a cur x) else none) : Cell).isSome = true
        rw [if_pos (by omega)]
        rfl
      | succ k =>
        show (cellAt (emaGo a w tl (cnt + 1) (some (emaStep a cur x))) k).isSome = true
        exact ih k (cnt + 1) (some (emaStep a cur x)) htl (by omega) (by omega)

/-- C6 (confirmed): for every 19-bar series of proper bars (no null close),
the SMA-20 and EMA-20 columns stored by `add_technical_indicators` are
entirely null; for every such 20-bar series, each column is null at the first
19 positions and non-null exactly at the final position. -/
theorem indicators_null_pattern (df : Df) :
    (df.close.length = 19 → df.close.all Option.isSome = true →
      (add_technical_indicators df).sma20 = some (List.replicate 19 (none : Cell)) ∧
      (add_technical_indicators df).ema20 = some (List.replicate 19 (none : Cell))) ∧
    (df.close.length = 20 → df.close.all Option.isSome = true →
      (∀ j, j < 19 →
        cellAt ((add_technical_indicators df).sma20.getD []) j = none ∧
        cellAt ((add_technical_indicators df).ema20.getD []) j = none) ∧
      (cellAt ((add_technical_indicators df).sma20.getD []) 19).isSome = true ∧
      (cellAt ((add_technical_indicators df).ema20.getD []) 19).isSome = true ∧
      ((add_technical_indicators df).sma20.getD []).length = 20 ∧
      ((add_technical_indicators df).ema20.getD []).length = 20) := by
  constructor
  · intro h19 _hall
    constructor
    · show some (smaIndicator 20 df.close) = some (List.replicate 19 (none : Cell))
      congr 1
      unfold smaIndicator
      rw [h19]
      exact map_range_eq_replicate 19 _ (fun i hi => smaCell_none 20 df.close i (by omega))
    · show some (emaIndicator 20 df.close) = some (List.replicate 19 (none : Cell))
      congr 1
      unfold emaIndicator
      rw [emaGo_replicate _ 20 df.close 0 none (by rw [h19]; omega), h19]
  · intro h20 hall
    have hcell : ∀ j, j < 20 → cellAt (smaIndicator 20 df.close) j = smaCell 20 df.close j := by
      intro j hj
      unfold smaIndicator
      rw [h20]
      exact cellAt_map_range 20 _ j hj
    refine ⟨?_, ?_, ?_, ?_, ?_⟩
    · intro j hj
      constructor
      · show cellAt (smaIndicator 20 df.close) j = none
        rw [hcell j (by omega)]
        exact smaCell_none 20 df.close j (by omega)
      · show cellAt (emaIndicator 20 df.close) j = none
        unfold emaIndicator
        exact emaGo_cellAt_lt _ 20 df.close j 0 none (by rw [h20]; omega) (by omega)
    · show (cellAt (smaIndicator 20 df.close) 19).isSome = true
      rw [hcell 19 (by omega)]
      exact smaCell_at_19 df.close h20 hall
    · show (cellAt (emaIndicator 20 df.close) 19).isSome = true
      unfold emaIndicator
      exact emaGo_cellAt_ge _ 20 df.close 19 0 none hall (by rw [h20]; omega) (by omega)
    · show (smaIndicator 20 df.close).length = 20
      unfold smaIndicator
      rw [List.length_map, List.length_range, h20]
    · show (emaIndicator 20 df.close).length = 20
      unfold emaIndicator
      rw [emaGo_length, h20]

/-- C6 witness: concrete 19-bar and 20-bar series. -/
theorem indicators_null_pattern_witness :
    (add_technical_indicators (dfN 19)).sma20 = some (List.replicate 19 (none : Cell)) ∧
    (add_technical_indicators (dfN 19)).ema20 = some (List.replicate 19 (none : Cell)) ∧
    (cellAt ((add_technical_indicators (dfN 20)).sma20.getD []) 19).isSome = true ∧
    cellAt ((add_technical_indicators (dfN 20)).ema20.getD []) 5 = none :=
  ⟨((indicators_null_pattern (dfN 19)).1 rfl rfl).1,
   ((indicators_null_pattern (dfN 19)).1 rfl rfl).2,
   ((indicators_null_pattern (dfN 20)).2 rfl rfl).2.1,
   (((indicators_null_pattern (dfN 20)).2 rfl rfl).1 5 (by omega)).2⟩

end StockApp

namespace UrlShortener

/-- Helper: `getD` yields a member of the list or the default. -/
theorem getD_mem_or_default (l : List Char) (k : Nat) (d : Char) :
    l.getD k d ∈ l ∨ l.getD k d = d := by
  induction l generalizing k with
  | nil =>
    right
    cases k <;> rfl
  | cons c t ih =>
    cases k with
    | zero => left; exact List.mem_cons_self c t
    | succ k2 =>
      rcases ih k2 with h | h
      · left
        rw [show (c :: t).getD (k2 + 1) d = t.getD k2 d from rfl]
        exact List.mem_cons_of_mem c h
      · right
        rw [show (c :: t).getD (k2 + 1) d = t.getD k2 d from rfl]
        exact h

/-- Helper: any indexed pick from the population (with default `a`) lies in
the population. -/
theorem alphabet_getD_mem (k : Nat) : alphabet.toList.getD k 'a' ∈ alphabet.toList := by
  rcases getD_mem_or_default alphabet.toList k 'a' with h | h
  · exact h
  · rw [h]
    decide

/-- C9 (confirmed): every short code produced by the default call to
`generate_short_code` (length 6) is a string of exactly 6 characters, each
drawn from the ASCII letters and decimal digits population. -/
theorem generate_short_code_spec (rng : Nat → Nat) :
    (generate_short_code rng 6).length = 6 ∧
    (generate_short_code rng 6).toList.all (fun c => decide (c ∈ alphabet.toList)) = true := by
  constructor
  · rfl
  · rw [List.all_eq_true]
    intro c hc
    rw [decide_eq_true_eq]
    have hc2 : c ∈ (List.range 6).map
        (fun i => alphabet.toList.getD (rng i % alphabet.toList.length) 'a') := hc
    rw [List.mem_map] at hc2
    obtain ⟨i, _, rfl⟩ := hc2
    exact alphabet_getD_mem _

end UrlShortener
